import Mathlib

/- Batteries seals rational arithmetic against unfolding; concrete
evaluation of the embedded engine (decide / rfl witnesses) needs it
reducible again within this file. -/
attribute [local semireducible] Rat.add Rat.mul Rat.sub Rat.inv Rat.ofScientific

set_option maxRecDepth 8000

/-!
Shallow embedding of the AI scheduling engine of this repository
(src/cloud-scheduler/ai-engine/main.py, class AIScheduler), and proofs of
the specification claims about it.

Modelling conventions:
* Python/numpy floats are modelled as exact rationals (ℚ).  The only
  irrational operation the engine performs is the square root inside
  np.std; it is modelled by ratSqrt below, which agrees with the real
  square root on every rational whose numerator and denominator are
  perfect squares — every concrete square-root evaluation appearing in
  this development happens at such a point.
* The trained LSTM network and the freshly-fitted random forest are opaque
  numeric models; they enter the embedding as explicit function parameters
  (step / fit oracles) that may fail (Except), exactly at the program
  points where the source calls into torch / sklearn.  Everything around
  them — padding, windowing, autoregressive rollout, clamping,
  timestamping, fallback, ensembling, confidence, the decision rules and
  both try/except structures — is translated from the source.
* numpy's global random generator is modelled as an explicit stream
  g : ℕ → ℚ of Gaussian draws together with a cursor; each np.random.normal
  call consumes the next draw.  datetime.now() is an explicit `now` input
  (hours, so timedelta(hours=i+1) is now + (i+1)).
* Only the first four feature-matrix columns (cpu, memory, disk, network —
  numpy column indices 0..3) are ever read by the components under
  verification (_fallback_prediction, _rf_predict descriptors and labels,
  _calculate_confidence); the calendar and moving-average columns that
  prepare_features appends are never read downstream, so a feature row is
  carried as those four base columns.
-/

/-- Floor square root on naturals by bounded descent (structural
recursion, so concrete evaluations reduce inside the kernel): the largest
k ≤ fuel with k*k ≤ n. -/
def sqrtFloorAux (n : ℕ) : ℕ → ℕ
  | 0 => 0
  | k + 1 => if (k + 1) * (k + 1) ≤ n then k + 1 else sqrtFloorAux n k

/-- Floor square root on naturals. -/
def sqrtFloor (n : ℕ) : ℕ := sqrtFloorAux n n

/-- Rational square root: componentwise floor square root on numerator and
denominator.  Exact on rationals that are squares of rationals (in
particular ratSqrt 0 = 0, ratSqrt 625 = 25); it stands for np.sqrt, every
concrete square-root evaluation in this file being at an exact point. -/
def ratSqrt (q : ℚ) : ℚ :=
  (sqrtFloor q.num.toNat : ℚ) / (sqrtFloor q.den : ℚ)

/-- np.mean over a list: sum divided by length.  (For the empty list numpy
yields NaN without raising; in every reachable use below the empty case is
either guarded out or pre-empted by npMax's error, so the junk value 0
produced here by ℚ's x/0 = 0 is never observable.) -/
def npMean (xs : List ℚ) : ℚ := xs.sum / (xs.length : ℚ)

/-- Population variance, as np.std squares it: mean of squared deviations. -/
def npVariance (xs : List ℚ) : ℚ :=
  ((xs.map (fun x => (x - npMean xs) * (x - npMean xs))).sum) / (xs.length : ℚ)

/-- np.std: square root of the population variance. -/
def npStd (xs : List ℚ) : ℚ := ratSqrt (npVariance xs)

/-- The message of the ValueError numpy raises for np.max([]). -/
def npMaxEmptyMsg : String :=
  "zero-size array to reduction operation maximum which has no identity"

/-- np.max over a list: raises (Except.error) on the empty list, exactly as
numpy does; otherwise the maximum. -/
def npMax (xs : List ℚ) : Except String ℚ :=
  match xs with
  | [] => .error npMaxEmptyMsg
  | x :: t => .ok (t.foldl max x)

/-- Total variant of npMax used to state what npMax returns on a nonempty
list (junk 0 on the empty list, where npMax errors instead). -/
def npMaxD (xs : List ℚ) : ℚ :=
  match xs with
  | [] => 0
  | x :: t => t.foldl max x

/-- One historical metric sample (a well-formed element of Forecast's
`historical_data`: the four metric fields the engine reads). -/
structure MetricSample where
  cpu_usage_percent : ℚ
  memory_usage_percent : ℚ
  disk_usage_percent : ℚ
  network_in_bytes : ℚ
deriving DecidableEq

/-- One feature-matrix row, restricted to the four base columns (numpy
column indices 0..3), the only columns read downstream (see header note). -/
structure FeatureRow where
  cpu_usage_percent : ℚ
  memory_usage_percent : ℚ
  disk_usage_percent : ℚ
  network_in_bytes : ℚ
deriving DecidableEq

/-- prepare_features (main.py 69-110), projected to the four base columns:
each sample contributes one row, base columns are the raw values (a
well-formed sample has every field, so the fillna defaults never fire for
them), and the row count equals the sample count. -/
def prepare_features (data : List MetricSample) : List FeatureRow :=
  data.map (fun s =>
    { cpu_usage_percent := s.cpu_usage_percent
      memory_usage_percent := s.memory_usage_percent
      disk_usage_percent := s.disk_usage_percent
      network_in_bytes := s.network_in_bytes })

/-- One forecast point as built at main.py 190-196 / 266-273 / 306-312:
timestamp (hours, base time plus i+1) and the four clamped metrics. -/
structure ForecastPoint where
  timestamp : ℚ
  cpu_usage_percent : ℚ
  memory_usage_percent : ℚ
  disk_usage_percent : ℚ
  network_usage : ℚ
deriving DecidableEq

/-- max(0, min(100, x)), the percent clamp used on every emitted metric. -/
def clampPercent (x : ℚ) : ℚ := max 0 (min 100 x)

/-- A raw 4-vector prediction (cpu, memory, disk, network) before clamping,
as produced by one model step. -/
structure PredRow where
  cpu : ℚ
  mem : ℚ
  disk : ℚ
  net : ℚ
deriving DecidableEq

/-- The stamping/clamping loop shared by _lstm_predict (189-196) and
_rf_predict (265-273): row i becomes a point at now + (i+1) hours with
percent fields clamped to [0,100] and network clamped to ≥ 0. -/
def stampClamp (now : ℚ) (rows : List PredRow) : List ForecastPoint :=
  rows.enum.map (fun ir =>
    { timestamp := now + ((ir.1 : ℚ) + 1)
      cpu_usage_percent := clampPercent ir.2.cpu
      memory_usage_percent := clampPercent ir.2.mem
      disk_usage_percent := clampPercent ir.2.disk
      network_usage := max 0 ir.2.net })

/-- _fallback_prediction (main.py 281-314).  `g` is the stream of Gaussian
draws of the global RNG and `k` the cursor; each point consumes four draws
(cpu, mem, disk, net in source order).  Returns the points and the advanced
cursor.  The shape[1] guards of lines 295-298 are all true here because a
feature row always carries the four base columns. -/
def fallback_prediction (g : ℕ → ℚ) (k : ℕ) (now : ℚ)
    (features : List FeatureRow) (horizon : ℕ) : List ForecastPoint × ℕ :=
  let recent_metrics : PredRow :=
    if features = [] then
      { cpu := 20, mem := 30, disk := 15, net := 1000 }
    else
      let recent_data := features.drop (features.length - min 24 features.length)
      { cpu := npMean (recent_data.map (·.cpu_usage_percent))
        mem := npMean (recent_data.map (·.memory_usage_percent))
        disk := npMean (recent_data.map (·.disk_usage_percent))
        net := npMean (recent_data.map (·.network_in_bytes)) }
  ((List.range horizon).map (fun (i : ℕ) =>
    { timestamp := now + ((i : ℚ) + 1)
      cpu_usage_percent := clampPercent (recent_metrics.cpu * (1 + g (k + 4 * i)))
      memory_usage_percent := clampPercent (recent_metrics.mem * (1 + g (k + 4 * i + 1)))
      disk_usage_percent := clampPercent (recent_metrics.disk * (1 + g (k + 4 * i + 2)))
      network_usage := max 0 (recent_metrics.net * (1 + g (k + 4 * i + 3))) }),
   k + 4 * horizon)

instance : Inhabited FeatureRow := ⟨⟨0, 0, 0, 0⟩⟩

/-- The initial LSTM context window (main.py 148-166): the last 24 feature
rows; with fewer than 24 rows, left-pad by repeating the last row (the
source tiles features[-1]).  (In Forecast's reachable states the matrix has
at least 24 rows, so the padding branch is dead there.) -/
def lstmWindow (features : List FeatureRow) : List FeatureRow :=
  if features.length < 24 then
    List.replicate (24 - features.length) (features.getLastD default) ++ features
  else
    features.drop (features.length - 24)

/-- Autoregressive rollout of the sequence model (main.py 175-182): one
abstract model step per horizon step; each prediction is appended as the
newest window row, dropping the oldest.  A failing step aborts the whole
rollout with its error — the partial list of produced rows is NOT part of
the result, matching the Python exception discarding the local
`predictions` list. -/
def lstmRollout (step : List PredRow → Except String PredRow) :
    List PredRow → ℕ → Except String (List PredRow)
  | _, 0 => .ok []
  | win, h + 1 =>
    match step win with
    | .error e => .error e
    | .ok r =>
      match lstmRollout step (win.drop 1 ++ [r]) h with
      | .error e => .error e
      | .ok rest => .ok (r :: rest)

/-- Project a feature row to the 4-vector the models predict (the base
columns, which are also what the rollout feeds back). -/
def rowOfFeature (r : FeatureRow) : PredRow :=
  { cpu := r.cpu_usage_percent, mem := r.memory_usage_percent
    disk := r.disk_usage_percent, net := r.network_in_bytes }

/-- _lstm_predict (main.py 144-203).  The torch model application
(standardise, run the network, unstandardise) is the abstract `step`
oracle; everything else is the source's control flow: roll out `horizon`
steps from the 24-row window, stamp and clamp the resulting rows; on ANY
exception fall back to _fallback_prediction for the full horizon (the
except at 200-203 discards every already-produced point).  The success
path consumes no random draws, so the cursor is returned unchanged. -/
def lstm_predict (step : List PredRow → Except String PredRow)
    (g : ℕ → ℚ) (k : ℕ) (now : ℚ)
    (features : List FeatureRow) (horizon : ℕ) : List ForecastPoint × ℕ :=
  match lstmRollout step ((lstmWindow features).map rowOfFeature) horizon with
  | .ok rows => (stampClamp now rows, k)
  | .error _ => fallback_prediction g k now features horizon

/-- The 6-dimensional window descriptor of _rf_predict (main.py 221-228 and
248-255): mean(cpu), std(cpu), mean(mem), std(mem), max(cpu), max(mem) over
a window of rows.  (np.max here is applied only to windows of size
W ≥ 1 in the source's reachable states; the total npMaxD stands in.) -/
def rfDescriptor (window : List PredRow) : List ℚ :=
  [ npMean (window.map (·.cpu))
  , npStd (window.map (·.cpu))
  , npMean (window.map (·.mem))
  , npStd (window.map (·.mem))
  , npMaxD (window.map (·.cpu))
  , npMaxD (window.map (·.mem)) ]

/-- Autoregressive rollout of the fitted forest (main.py 246-262): at each
step the descriptor of the current window is fed to the fitted model, and
the 4-vector prediction becomes the newest window row (the source's
np.vstack([current_window[1:], pred[:4]])).  As in the sequence rollout, a
failure aborts with its error and discards the produced rows. -/
def rfRollout (model : List ℚ → Except String PredRow) :
    List PredRow → ℕ → Except String (List PredRow)
  | _, 0 => .ok []
  | win, h + 1 =>
    match model (rfDescriptor win) with
    | .error e => .error e
    | .ok r =>
      match rfRollout model (win.drop 1 ++ [r]) h with
      | .error e => .error e
      | .ok rest => .ok (r :: rest)

/-- The training set of _rf_predict (main.py 212-231): for each index i in
[W, n), the descriptor of rows features[i-W:i] labelled with the base
4-vector of row i. -/
def rfTrainingSet (features : List FeatureRow) (W : ℕ) : List (List ℚ × PredRow) :=
  (List.range (features.length - W)).map (fun j =>
    let window := ((features.drop j).take W).map rowOfFeature
    (rfDescriptor window, rowOfFeature ((features.drop (W + j)).headD default)))

/-- _rf_predict (main.py 205-279).  sklearn's fit + predict pair is the
abstract `fit` oracle: fitting the training set yields (or fails to yield)
a per-descriptor predictor that may itself fail.  The source's control
flow is kept: fewer than 10 feature rows, or fewer than 5 training
samples, delegate wholly to the fallback; window size W = min(12, n/2);
rollout for `horizon` steps from the last W rows; any fit/predict failure
falls back for the full horizon (the except at 277-279 discards every
produced point).  The success path consumes no random draws. -/
def rf_predict (fit : List (List ℚ × PredRow) → Except String (List ℚ → Except String PredRow))
    (g : ℕ → ℚ) (k : ℕ) (now : ℚ)
    (features : List FeatureRow) (horizon : ℕ) : List ForecastPoint × ℕ :=
  if features.length < 10 then fallback_prediction g k now features horizon
  else
    let W := min 12 (features.length / 2)
    let train := rfTrainingSet features W
    if train.length < 5 then fallback_prediction g k now features horizon
    else
      match fit train with
      | .error _ => fallback_prediction g k now features horizon
      | .ok model =>
        match rfRollout model ((features.drop (features.length - W)).map rowOfFeature) horizon with
        | .ok rows => (stampClamp now rows, k)
        | .error _ => fallback_prediction g k now features horizon

/-- _ensemble_predictions (main.py 316-332): if either forecast list is
empty return the other unchanged; otherwise blend the overlapping prefix
(zipWith truncates to the shorter list, i.e. to min of the lengths) with
weights 0.6 (sequence) / 0.4 (forest), timestamps from the sequence side. -/
def ensemble_predictions (lstm_pred rf_pred : List ForecastPoint) : List ForecastPoint :=
  if lstm_pred = [] ∨ rf_pred = [] then
    (if lstm_pred = [] then rf_pred else lstm_pred)
  else
    List.zipWith (fun l r =>
      { timestamp := l.timestamp
        cpu_usage_percent := 6/10 * l.cpu_usage_percent + 4/10 * r.cpu_usage_percent
        memory_usage_percent := 6/10 * l.memory_usage_percent + 4/10 * r.memory_usage_percent
        disk_usage_percent := 6/10 * l.disk_usage_percent + 4/10 * r.disk_usage_percent
        network_usage := 6/10 * l.network_usage + 4/10 * r.network_usage })
      lstm_pred rf_pred

/-- _calculate_confidence (main.py 334-354), translated clause by clause:
fixed 0.5 below 24 rows; otherwise coefficients of variation of the cpu
and memory columns over the last 24 rows, stability score
1/(1+cv_cpu+cv_mem), data score min(1, n/168), and the clamped blend
max(0.1, min(0.95, 0.7·stability + 0.3·data)). -/
def calculate_confidence (features : List FeatureRow) : ℚ :=
  if features.length < 24 then 1/2
  else
    let recent_data := features.drop (features.length - 24)
    let cpuCol := recent_data.map (·.cpu_usage_percent)
    let memCol := recent_data.map (·.memory_usage_percent)
    let cv_cpu := npStd cpuCol / (npMean cpuCol + 1/100000000)
    let cv_memory := npStd memCol / (npMean memCol + 1/100000000)
    let stability_score := 1 / (1 + cv_cpu + cv_memory)
    let data_score := min 1 ((features.length : ℚ) / 168)
    let confidence := 7/10 * stability_score + 3/10 * data_score
    max (1/10) (min (95/100) confidence)

/-- The model_info dictionary of predict_resource_usage (main.py 133-137). -/
structure ModelInfo where
  lstm_used : Bool
  rf_used : Bool
  ensemble : Bool
deriving DecidableEq

/-- The dictionary predict_resource_usage returns (main.py 130-138). -/
structure ForecastResult where
  predictions : List ForecastPoint
  confidence : ℚ
  model_info : ModelInfo
deriving DecidableEq

/-- The message of the ValueError raised for insufficient history
(main.py 116); the spec's InsufficientHistoryError. -/
def insufficientHistoryMsg : String := "历史数据不足，至少需要24小时数据"

/-- predict_resource_usage — the spec's Forecast (main.py 112-142).
Raises InsufficientHistoryError below 24 samples, otherwise extracts
features, runs both forecasters (the sequence one first, so it draws from
the RNG stream first if it falls back), ensembles, and attaches the
confidence.  `step` and `fit` are the abstract model oracles, `g`/`k` the
global RNG stream and cursor, `now` the clock reading. -/
def predict_resource_usage
    (step : List PredRow → Except String PredRow)
    (fit : List (List ℚ × PredRow) → Except String (List ℚ → Except String PredRow))
    (g : ℕ → ℚ) (k : ℕ) (now : ℚ)
    (data : List MetricSample) (horizon : ℕ) : Except String ForecastResult :=
  if data.length < 24 then .error insufficientHistoryMsg
  else
    let features := prepare_features data
    let lstmOut := lstm_predict step g k now features horizon
    let rfOut := rf_predict fit g lstmOut.2 now features horizon
    .ok { predictions := ensemble_predictions lstmOut.1 rfOut.1
          confidence := calculate_confidence features
          model_info := { lstm_used := true, rf_used := true, ensemble := true } }

/-- The predictions of a Forecast call, [] when Forecast raised. -/
def forecastOut
    (step : List PredRow → Except String PredRow)
    (fit : List (List ℚ × PredRow) → Except String (List ℚ → Except String PredRow))
    (g : ℕ → ℚ) (k : ℕ) (now : ℚ)
    (data : List MetricSample) (horizon : ℕ) : List ForecastPoint :=
  match predict_resource_usage step fit g k now data horizon with
  | .ok r => r.predictions
  | .error _ => []

/-- The aggregate statistics Decide reports (main.py 407-412). -/
structure AggregateMetrics where
  avg_cpu : ℚ
  avg_memory : ℚ
  max_cpu : ℚ
  max_memory : ℚ
deriving DecidableEq

/-- The ScheduleDecision response model (main.py 28-34).  The error branch
returns an empty predicted_metrics dictionary, modelled as none. -/
structure ScheduleDecision where
  resource_id : ℤ
  action : String
  confidence : ℚ
  predicted_metrics : Option AggregateMetrics
  reasoning : String
deriving DecidableEq

/-- The current_metrics dictionary: Decide reads exactly the two keys
cpu_usage_percent and memory_usage_percent with .get(key, 0) (main.py
360-361), so only those (possibly absent) entries are modelled. -/
structure CurrentMetrics where
  cpu_usage_percent : Option ℚ
  memory_usage_percent : Option ℚ
deriving DecidableEq

/-- The reasoning texts of main.py 375-401.  Numeric interpolation uses
toString in place of Python's one-decimal formatting; no claim constrains
the rendered digits, only which values a reasoning text depends on. -/
def reasonMaintain : String := "资源使用正常，维持当前配置"

def reasonScaleUpMax (mc mm : ℚ) : String :=
  "预测未来6小时内CPU或内存使用率将超过85%（CPU " ++ toString mc ++
    "%, 内存 " ++ toString mm ++ "%），建议扩容"

def reasonScaleUpAvg (ac am : ℚ) : String :=
  "预测未来6小时平均负载较高（CPU " ++ toString ac ++
    "%, 内存 " ++ toString am ++ "%），建议适度扩容"

def reasonScaleDown (ac am : ℚ) : String :=
  "预测未来6小时负载较低（CPU " ++ toString ac ++
    "%, 内存 " ++ toString am ++ "%），可考虑缩容以节省成本"

def reasonOptimize (sc sm : ℚ) : String :=
  "预测负载波动较大（CPU标准差 " ++ toString sc ++
    ", 内存标准差 " ++ toString sm ++ "），建议优化调度策略"

/-- The rule chain of make_schedule_decision (main.py 372-401), a pure
function of the forecast-window statistics: default maintain/0.8; the
if/elif chain over max (>85 → scale_up 0.9), average (>70 → scale_up 0.7)
and low load (avg cpu<20 ∧ avg mem<30 ∧ max cpu<40 → scale_down 0.6); then
the separate volatility check (std>20 → optimize 0.5) which overwrites
whatever the chain chose.  Returns (action, confidence, reasoning). -/
def decisionRules (mc mm ac am sc sm : ℚ) : String × ℚ × String :=
  let base : String × ℚ × String :=
    if mc > 85 ∨ mm > 85 then ("scale_up", 9/10, reasonScaleUpMax mc mm)
    else if ac > 70 ∨ am > 70 then ("scale_up", 7/10, reasonScaleUpAvg ac am)
    else if ac < 20 ∧ am < 30 ∧ mc < 40 then ("scale_down", 6/10, reasonScaleDown ac am)
    else ("maintain", 8/10, reasonMaintain)
  if sc > 20 ∨ sm > 20 then ("optimize", 5/10, reasonOptimize sc sm) else base

/-- The body of make_schedule_decision's try block (main.py 358-414):
read the two current-metric values (bound but never used afterwards),
slice the first 6 forecast points, take mean/max/std of their cpu and
memory series — np.max raising on an empty slice (the only failure point
for well-formed input) — run the rule chain, and assemble the decision. -/
def decisionAnalysis (rid : ℤ) (cm : CurrentMetrics) (pm : List ForecastPoint) :
    Except String ScheduleDecision :=
  let _current_cpu := cm.cpu_usage_percent.getD 0
  let _current_memory := cm.memory_usage_percent.getD 0
  let future_cpu := (pm.take 6).map (·.cpu_usage_percent)
  let future_memory := (pm.take 6).map (·.memory_usage_percent)
  let avg_future_cpu := npMean future_cpu
  let avg_future_memory := npMean future_memory
  match npMax future_cpu, npMax future_memory with
  | .ok max_future_cpu, .ok max_future_memory =>
    let cpu_std := npStd future_cpu
    let memory_std := npStd future_memory
    let acr := decisionRules max_future_cpu max_future_memory
      avg_future_cpu avg_future_memory cpu_std memory_std
    .ok { resource_id := rid
          action := acr.1
          confidence := acr.2.1
          predicted_metrics := some
            { avg_cpu := avg_future_cpu
              avg_memory := avg_future_memory
              max_cpu := max_future_cpu
              max_memory := max_future_memory }
          reasoning := acr.2.2 }
  | .error e, _ => .error e
  | .ok _, .error e => .error e

/-- The decision the catch-all of main.py 416-424 returns for an internal
error with text e. -/
def failClosedDecision (rid : ℤ) (e : String) : ScheduleDecision :=
  { resource_id := rid
    action := "maintain"
    confidence := 1/10
    predicted_metrics := none
    reasoning := "决策分析失败: " ++ e }

/-- make_schedule_decision — the spec's Decide (main.py 356-424): the
analysis body inside a universal try/except that degrades any internal
error to the fixed low-confidence maintain decision.  Total by
construction, as the Python function is for well-formed input. -/
def make_schedule_decision (rid : ℤ) (cm : CurrentMetrics)
    (pm : List ForecastPoint) : ScheduleDecision :=
  match decisionAnalysis rid cm pm with
  | .ok d => d
  | .error e => failClosedDecision rid e

/-! Concrete fixtures used by witnesses and counterexamples. -/

/-- A flat history sample: every metric 50. -/
def sample50 : MetricSample := ⟨50, 50, 50, 50⟩

/-- 24 hourly samples, all flat at 50 — the shortest history Forecast
accepts. -/
def hist24 : List MetricSample := List.replicate 24 sample50

/-- 5 samples — the spec's boundary scenario for insufficient history. -/
def hist5 : List MetricSample := List.replicate 5 sample50

/-- A sequence-model oracle that always fails (forces the fallback path). -/
def stepFail : List PredRow → Except String PredRow := fun _ => .error "lstm failure"

/-- A forest fit oracle that always fails (forces the fallback path). -/
def fitFail : List (List ℚ × PredRow) → Except String (List ℚ → Except String PredRow) :=
  fun _ => .error "rf failure"

/-- RNG stream of all-zero Gaussian draws (no jitter). -/
def gZero : ℕ → ℚ := fun _ => 0

/-- RNG stream of all-one Gaussian draws (doubles every baseline). -/
def gOne : ℕ → ℚ := fun _ => 1

/-- A current_metrics dictionary with neither key present. -/
def cmEmpty : CurrentMetrics := ⟨none, none⟩

/-- A current_metrics dictionary with cpu 99 and memory 98. -/
def cmHigh : CurrentMetrics := ⟨some 99, some 98⟩

/-- Six forecast points with cpu constantly 90 and memory constantly 50:
cpu max 90 > 85 and both window standard deviations are 0. -/
def predsFlat90 : List ForecastPoint :=
  (List.range 6).map (fun (i : ℕ) => ⟨(i : ℚ) + 1, 90, 50, 50, 1000⟩)

/-- The same cpu series but memory [0,0,0,50,50,50], whose population
standard deviation is exactly 25. -/
def predsVolatileMem : List ForecastPoint :=
  (List.range 6).map (fun (i : ℕ) =>
    ⟨(i : ℚ) + 1, 90, if i < 3 then 0 else 50, 50, 1000⟩)

/-- The 24-row prediction window of the flat history (all rows 50). -/
def win50 : List PredRow := List.replicate 24 ⟨50, 50, 50, 50⟩

/-- A sequence-model oracle that succeeds exactly once: on the initial flat
window it produces the distinctive row (77,50,50,50); on every other
window (in particular the updated window of step 1) it fails. -/
def stepOnce : List PredRow → Except String PredRow := fun win =>
  if win = win50 then .ok ⟨77, 50, 50, 50⟩ else .error "lstm failure at step 1"

deriving instance DecidableEq for Except

/-! Length lemmas: every producer emits exactly `horizon` points. -/

theorem fallback_prediction_length (g : ℕ → ℚ) (k : ℕ) (now : ℚ)
    (features : List FeatureRow) (horizon : ℕ) :
    ((fallback_prediction g k now features horizon).1).length = horizon := by
  simp [fallback_prediction]

theorem stampClamp_length (now : ℚ) (rows : List PredRow) :
    (stampClamp now rows).length = rows.length := by
  simp [stampClamp]

theorem lstmRollout_ok_length (step : List PredRow → Except String PredRow) :
    ∀ (horizon : ℕ) (win rows : List PredRow),
      lstmRollout step win horizon = .ok rows → rows.length = horizon := by
  intro horizon
  induction horizon with
  | zero =>
    intro win rows hr
    simp only [lstmRollout] at hr
    cases hr
    rfl
  | succ n ih =>
    intro win rows hr
    simp only [lstmRollout] at hr
    split at hr
    · cases hr
    · split at hr
      · cases hr
      · cases hr
        next rest hrec => simp [ih _ rest hrec]

theorem rfRollout_ok_length (model : List ℚ → Except String PredRow) :
    ∀ (horizon : ℕ) (win rows : List PredRow),
      rfRollout model win horizon = .ok rows → rows.length = horizon := by
  intro horizon
  induction horizon with
  | zero =>
    intro win rows hr
    simp only [rfRollout] at hr
    cases hr
    rfl
  | succ n ih =>
    intro win rows hr
    simp only [rfRollout] at hr
    split at hr
    · cases hr
    · split at hr
      · cases hr
      · cases hr
        next rest hrec => simp [ih _ rest hrec]

theorem lstm_predict_length (step : List PredRow → Except String PredRow)
    (g : ℕ → ℚ) (k : ℕ) (now : ℚ) (features : List FeatureRow) (horizon : ℕ) :
    ((lstm_predict step g k now features horizon).1).length = horizon := by
  unfold lstm_predict
  cases hr : lstmRollout step ((lstmWindow features).map rowOfFeature) horizon with
  | ok rows => simp [stampClamp_length, lstmRollout_ok_length step horizon _ rows hr]
  | error e => simp [fallback_prediction_length]

theorem rf_predict_length
    (fit : List (List ℚ × PredRow) → Except String (List ℚ → Except String PredRow))
    (g : ℕ → ℚ) (k : ℕ) (now : ℚ) (features : List FeatureRow) (horizon : ℕ) :
    ((rf_predict fit g k now features horizon).1).length = horizon := by
  unfold rf_predict
  by_cases h1 : features.length < 10
  · simp [h1, fallback_prediction_length]
  · simp only [h1, if_false]
    by_cases h2 : (rfTrainingSet features (min 12 (features.length / 2))).length < 5
    · simp [h2, fallback_prediction_length]
    · simp only [h2, if_false]
      cases hf : fit (rfTrainingSet features (min 12 (features.length / 2))) with
      | error e => simp [hf, fallback_prediction_length]
      | ok model =>
        simp only [hf]
        cases hr : rfRollout model
            ((features.drop (features.length - min 12 (features.length / 2))).map rowOfFeature)
            horizon with
        | ok rows => simp [hr, stampClamp_length, rfRollout_ok_length model horizon _ rows hr]
        | error e => simp [hr, fallback_prediction_length]

theorem ensemble_predictions_length (l r : List ForecastPoint) (n : ℕ)
    (hl : l.length = n) (hr : r.length = n) :
    (ensemble_predictions l r).length = n := by
  unfold ensemble_predictions
  by_cases h1 : l = []
  · subst h1
    simp [hr]
  · by_cases h2 : r = []
    · subst h2
      simp [h1, hl]
    · simp [h1, h2, List.length_zipWith, hl, hr]

/-- C2: For every well-formed history with at least 24 samples and every
horizon, Forecast returns exactly `horizon` prediction points — for every
behavior of the sequence-model and forest oracles, so in particular when
either forecaster fails and the fallback trend estimator is used — and the
combiner's overlap length equals `horizon` because both upstream
forecasters return exactly `horizon` points. -/
theorem forecast_returns_exactly_horizon_points
    (step : List PredRow → Except String PredRow)
    (fit : List (List ℚ × PredRow) → Except String (List ℚ → Except String PredRow))
    (g : ℕ → ℚ) (k : ℕ) (now : ℚ) (data : List MetricSample) (horizon : ℕ)
    (hlen : 24 ≤ data.length) :
    ((lstm_predict step g k now (prepare_features data) horizon).1).length = horizon ∧
    (∀ k2 : ℕ, ((rf_predict fit g k2 now (prepare_features data) horizon).1).length = horizon) ∧
    ∀ res, predict_resource_usage step fit g k now data horizon = .ok res →
      res.predictions.length = horizon := by
  refine ⟨lstm_predict_length _ _ _ _ _ _, fun k2 => rf_predict_length _ _ _ _ _ _, ?_⟩
  intro res hres
  unfold predict_resource_usage at hres
  rw [if_neg (Nat.not_lt.2 hlen)] at hres
  cases hres
  exact ensemble_predictions_length _ _ horizon
    (lstm_predict_length _ _ _ _ _ _) (rf_predict_length _ _ _ _ _ _)

/-- Witness for C2 at a concrete input: the minimal accepted history (24
flat samples), horizon 1, and oracles that always fail, so both
forecasters take the fallback path. -/
theorem forecast_returns_exactly_horizon_points_w :
    24 ≤ hist24.length ∧
    (⟨[⟨1, 50, 50, 50, 50⟩], 26/35, ⟨true, true, true⟩⟩ : ForecastResult).predictions.length = 1 :=
  ⟨by decide,
   (forecast_returns_exactly_horizon_points stepFail fitFail gZero 0 0 hist24 1
      (by decide)).2.2 _ (by decide)⟩

/-- The ForecastPoint invariant of the spec's data model: percent fields in
[0,100] and nonnegative network usage. -/
def ForecastPointInRange (p : ForecastPoint) : Prop :=
  0 ≤ p.cpu_usage_percent ∧ p.cpu_usage_percent ≤ 100 ∧
  0 ≤ p.memory_usage_percent ∧ p.memory_usage_percent ≤ 100 ∧
  0 ≤ p.disk_usage_percent ∧ p.disk_usage_percent ≤ 100 ∧
  0 ≤ p.network_usage

instance (p : ForecastPoint) : Decidable (ForecastPointInRange p) := by
  unfold ForecastPointInRange
  infer_instance

theorem clampPercent_nonneg (x : ℚ) : 0 ≤ clampPercent x := le_max_left 0 _

theorem clampPercent_le_100 (x : ℚ) : clampPercent x ≤ 100 :=
  max_le (by norm_num) (min_le_left 100 x)

theorem stampClamp_inRange (now : ℚ) (rows : List PredRow) :
    ∀ p ∈ stampClamp now rows, ForecastPointInRange p := by
  intro p hp
  unfold stampClamp at hp
  obtain ⟨ir, _, rfl⟩ := List.mem_map.1 hp
  exact ⟨clampPercent_nonneg _, clampPercent_le_100 _, clampPercent_nonneg _,
    clampPercent_le_100 _, clampPercent_nonneg _, clampPercent_le_100 _, le_max_left 0 _⟩

theorem fallback_prediction_inRange (g : ℕ → ℚ) (k : ℕ) (now : ℚ)
    (features : List FeatureRow) (horizon : ℕ) :
    ∀ p ∈ (fallback_prediction g k now features horizon).1, ForecastPointInRange p := by
  intro p hp
  unfold fallback_prediction at hp
  simp only [List.mem_map, List.mem_range] at hp
  obtain ⟨i, _, rfl⟩ := hp
  exact ⟨clampPercent_nonneg _, clampPercent_le_100 _, clampPercent_nonneg _,
    clampPercent_le_100 _, clampPercent_nonneg _, clampPercent_le_100 _, le_max_left 0 _⟩

theorem lstm_predict_inRange (step : List PredRow → Except String PredRow)
    (g : ℕ → ℚ) (k : ℕ) (now : ℚ) (features : List FeatureRow) (horizon : ℕ) :
    ∀ p ∈ (lstm_predict step g k now features horizon).1, ForecastPointInRange p := by
  intro p hp
  unfold lstm_predict at hp
  cases hr : lstmRollout step ((lstmWindow features).map rowOfFeature) horizon with
  | ok rows =>
    rw [hr] at hp
    exact stampClamp_inRange now rows p hp
  | error e =>
    rw [hr] at hp
    exact fallback_prediction_inRange g k now features horizon p hp

theorem rf_predict_inRange
    (fit : List (List ℚ × PredRow) → Except String (List ℚ → Except String PredRow))
    (g : ℕ → ℚ) (k : ℕ) (now : ℚ) (features : List FeatureRow) (horizon : ℕ) :
    ∀ p ∈ (rf_predict fit g k now features horizon).1, ForecastPointInRange p := by
  intro p hp
  unfold rf_predict at hp
  by_cases h1 : features.length < 10
  · rw [if_pos h1] at hp
    exact fallback_prediction_inRange g k now features horizon p hp
  · rw [if_neg h1] at hp
    simp only at hp
    by_cases h2 : (rfTrainingSet features (min 12 (features.length / 2))).length < 5
    · rw [if_pos h2] at hp
      exact fallback_prediction_inRange g k now features horizon p hp
    · rw [if_neg h2] at hp
      split at hp
      · exact fallback_prediction_inRange g k now features horizon p hp
      · split at hp
        · exact stampClamp_inRange now _ p hp
        · exact fallback_prediction_inRange g k now features horizon p hp

theorem mem_zipWith_blend {α β γ : Type} (f : α → β → γ) :
    ∀ (l : List α) (r : List β) (c : γ), c ∈ List.zipWith f l r →
      ∃ a b, a ∈ l ∧ b ∈ r ∧ c = f a b := by
  intro l
  induction l with
  | nil => intro r c hc; simp at hc
  | cons x t ih =>
    intro r c hc
    cases r with
    | nil => simp at hc
    | cons y s =>
      simp only [List.zipWith_cons_cons, List.mem_cons] at hc
      rcases hc with hc | hc
      · exact ⟨x, y, List.mem_cons_self x t, List.mem_cons_self y s, hc⟩
      · obtain ⟨a, b, ha, hb, rfl⟩ := ih s c hc
        exact ⟨a, b, List.mem_cons_of_mem x ha, List.mem_cons_of_mem y hb, rfl⟩

theorem blend_bounds {a b : ℚ} (ha0 : 0 ≤ a) (ha1 : a ≤ 100) (hb0 : 0 ≤ b) (hb1 : b ≤ 100) :
    0 ≤ 6/10 * a + 4/10 * b ∧ 6/10 * a + 4/10 * b ≤ 100 :=
  ⟨by positivity, by linarith⟩

theorem ensemble_predictions_inRange (l r : List ForecastPoint)
    (hl : ∀ p ∈ l, ForecastPointInRange p) (hr : ∀ p ∈ r, ForecastPointInRange p) :
    ∀ p ∈ ensemble_predictions l r, ForecastPointInRange p := by
  intro p hp
  unfold ensemble_predictions at hp
  by_cases h1 : l = [] ∨ r = []
  · rw [if_pos h1] at hp
    by_cases h2 : l = []
    · rw [if_pos h2] at hp
      exact hr p hp
    · rw [if_neg h2] at hp
      exact hl p hp
  · rw [if_neg h1] at hp
    obtain ⟨a, b, ha, hb, rfl⟩ := mem_zipWith_blend _ l r p hp
    obtain ⟨ha1, ha2, ha3, ha4, ha5, ha6, ha7⟩ := hl a ha
    obtain ⟨hb1, hb2, hb3, hb4, hb5, hb6, hb7⟩ := hr b hb
    exact ⟨(blend_bounds ha1 ha2 hb1 hb2).1, (blend_bounds ha1 ha2 hb1 hb2).2,
      (blend_bounds ha3 ha4 hb3 hb4).1, (blend_bounds ha3 ha4 hb3 hb4).2,
      (blend_bounds ha5 ha6 hb5 hb6).1, (blend_bounds ha5 ha6 hb5 hb6).2,
      by positivity⟩

/-- C4: Every point returned by Forecast — for any history of at least 24
samples, any horizon and any behavior of the model oracles, hence also the
fallback-produced and ensemble-blended points — has cpu, memory and disk
percentages in [0,100] and nonnegative network usage. -/
theorem forecast_points_in_range
    (step : List PredRow → Except String PredRow)
    (fit : List (List ℚ × PredRow) → Except String (List ℚ → Except String PredRow))
    (g : ℕ → ℚ) (k : ℕ) (now : ℚ) (data : List MetricSample) (horizon : ℕ)
    (hlen : 24 ≤ data.length) :
    ∀ p ∈ forecastOut step fit g k now data horizon, ForecastPointInRange p := by
  intro p hp
  unfold forecastOut predict_resource_usage at hp
  rw [if_neg (Nat.not_lt.2 hlen)] at hp
  exact ensemble_predictions_inRange _ _
    (lstm_predict_inRange _ _ _ _ _ _) (rf_predict_inRange _ _ _ _ _ _) p hp

/-- Witness for C4: the blended point produced from the flat 24-sample
history with both oracles failing (both forecasters fall back) lies in
range. -/
theorem forecast_points_in_range_w :
    24 ≤ hist24.length ∧ ForecastPointInRange ⟨1, 50, 50, 50, 50⟩ :=
  ⟨by decide,
   forecast_points_in_range stepFail fitFail gZero 0 0 hist24 1 (by decide)
     ⟨1, 50, 50, 50, 50⟩ (by decide)⟩

/-- C5: Forecast fails with InsufficientHistoryError (the ValueError of
main.py 116) exactly when the history has fewer than 24 samples, this is
its only failure mode on well-formed input, and a failing call returns no
predictions (an Except.error carries none). -/
theorem forecast_insufficient_history
    (step : List PredRow → Except String PredRow)
    (fit : List (List ℚ × PredRow) → Except String (List ℚ → Except String PredRow))
    (g : ℕ → ℚ) (k : ℕ) (now : ℚ) (data : List MetricSample) (horizon : ℕ) :
    (predict_resource_usage step fit g k now data horizon = .error insufficientHistoryMsg
      ↔ data.length < 24) ∧
    ∀ e, predict_resource_usage step fit g k now data horizon = .error e →
      e = insufficientHistoryMsg := by
  unfold predict_resource_usage
  by_cases h : data.length < 24
  · rw [if_pos h]
    refine ⟨⟨fun _ => h, fun _ => rfl⟩, fun e he => ?_⟩
    cases he
    rfl
  · rw [if_neg h]
    refine ⟨⟨fun hc => ?_, fun hc => absurd hc h⟩, fun e he => ?_⟩
    · cases hc
    · cases he

/-- Witness for C5: a 5-sample history is rejected with
InsufficientHistoryError; the 24-sample history is not. -/
theorem forecast_insufficient_history_w :
    hist5.length < 24 ∧
    predict_resource_usage stepFail fitFail gZero 0 0 hist5 24 = .error insufficientHistoryMsg ∧
    ¬ predict_resource_usage stepFail fitFail gZero 0 0 hist24 1 = .error insufficientHistoryMsg :=
  ⟨by decide,
   (forecast_insufficient_history stepFail fitFail gZero 0 0 hist5 24).1.mpr (by decide),
   fun hc => by
     have := (forecast_insufficient_history stepFail fitFail gZero 0 0 hist24 1).1.mp hc
     exact absurd this (by decide)⟩

/-- The clamp of the spec's §4.6 formula, clamp(x, lo, hi). -/
def specClamp (lo hi x : ℚ) : ℚ := max lo (min hi x)

/-- The spec's §4.6 confidence formula, written from its words: over the
last 24 feature rows, cv = stdev/(mean+1e-8) for the cpu and memory
columns, stabilityScore = 1/(1+cv_cpu+cv_mem), dataScore =
min(1, rowCount/168), result clamp(0.7·stabilityScore + 0.3·dataScore,
0.1, 0.95).  Used only to compare against the code-side
calculate_confidence. -/
def confidenceSpecFormula (features : List FeatureRow) : ℚ :=
  let lastRows := features.drop (features.length - 24)
  let cv_cpu := npStd (lastRows.map (·.cpu_usage_percent)) /
    (npMean (lastRows.map (·.cpu_usage_percent)) + 1/100000000)
  let cv_mem := npStd (lastRows.map (·.memory_usage_percent)) /
    (npMean (lastRows.map (·.memory_usage_percent)) + 1/100000000)
  let stabilityScore := 1 / (1 + cv_cpu + cv_mem)
  let dataScore := min 1 ((features.length : ℚ) / 168)
  specClamp (1/10) (95/100) (7/10 * stabilityScore + 3/10 * dataScore)

/-- C6: Forecast's confidence (always calculate_confidence of the feature
matrix) lies in [0.1, 0.95]; with fewer than 24 feature rows it is exactly
0.5; otherwise it equals the spec's clamped stability/data-score formula. -/
theorem forecast_confidence_formula (features : List FeatureRow) :
    (1/10 ≤ calculate_confidence features ∧ calculate_confidence features ≤ 95/100) ∧
    (features.length < 24 → calculate_confidence features = 1/2) ∧
    (24 ≤ features.length → calculate_confidence features = confidenceSpecFormula features) ∧
    ∀ (step : List PredRow → Except String PredRow)
      (fit : List (List ℚ × PredRow) → Except String (List ℚ → Except String PredRow))
      (g : ℕ → ℚ) (k : ℕ) (now : ℚ) (data : List MetricSample) (horizon : ℕ) res,
      predict_resource_usage step fit g k now data horizon = .ok res →
      res.confidence = calculate_confidence (prepare_features data) := by
  refine ⟨?_, ?_, ?_, ?_⟩
  · unfold calculate_confidence
    by_cases h : features.length < 24
    · rw [if_pos h]
      norm_num
    · rw [if_neg h]
      exact ⟨le_max_left _ _, max_le (by norm_num) (min_le_left _ _)⟩
  · intro h
    unfold calculate_confidence
    rw [if_pos h]
  · intro h
    unfold calculate_confidence confidenceSpecFormula specClamp
    rw [if_neg (Nat.not_lt.2 h)]
  · intro step fit g k now data horizon res hres
    unfold predict_resource_usage at hres
    by_cases h : data.length < 24
    · rw [if_pos h] at hres
      cases hres
    · rw [if_neg h] at hres
      cases hres
      rfl

/-- Witness for C6: the flat 24-row matrix takes the formula branch (value
26/35), a 5-row matrix returns exactly 0.5, and a concrete Forecast call
returns calculate_confidence of its feature matrix. -/
theorem forecast_confidence_formula_w :
    (24 ≤ (prepare_features hist24).length ∧
      calculate_confidence (prepare_features hist24) = confidenceSpecFormula (prepare_features hist24)) ∧
    ((prepare_features hist5).length < 24 ∧ calculate_confidence (prepare_features hist5) = 1/2) ∧
    (⟨[⟨1, 50, 50, 50, 50⟩], 26/35, ⟨true, true, true⟩⟩ : ForecastResult).confidence =
      calculate_confidence (prepare_features hist24) :=
  ⟨⟨by decide, (forecast_confidence_formula (prepare_features hist24)).2.2.1 (by decide)⟩,
   ⟨by decide, (forecast_confidence_formula (prepare_features hist5)).2.1 (by decide)⟩,
   (forecast_confidence_formula (prepare_features hist24)).2.2.2 stepFail fitFail gZero 0 0
     hist24 1 _ (by decide)⟩

/-- C1: Decide is total (make_schedule_decision is a total function of any
well-formed input, including the empty predictions list) and fail-closed:
it returns the analysis result when the analysis succeeds, and whenever an
internal error occurs during decision analysis it returns exactly the
decision with action maintain, confidence 0.1, empty aggregate metrics and
the error text as reasoning — errors never propagate. -/
theorem decide_total_fail_closed (rid : ℤ) (cm : CurrentMetrics) (pm : List ForecastPoint) :
    (∀ d, decisionAnalysis rid cm pm = .ok d → make_schedule_decision rid cm pm = d) ∧
    (∀ e, decisionAnalysis rid cm pm = .error e →
      make_schedule_decision rid cm pm =
        { resource_id := rid, action := "maintain", confidence := 1/10,
          predicted_metrics := none, reasoning := "决策分析失败: " ++ e }) := by
  constructor
  · intro d hd
    unfold make_schedule_decision
    rw [hd]
  · intro e he
    unfold make_schedule_decision
    rw [he]
    rfl

/-- Witness for C1: with the empty predictions list the analysis fails
(np.max of an empty slice raises) and Decide returns the fail-closed
decision carrying that error text. -/
theorem decide_total_fail_closed_w :
    decisionAnalysis 1 cmHigh [] = .error npMaxEmptyMsg ∧
    make_schedule_decision 1 cmHigh [] =
      { resource_id := 1, action := "maintain", confidence := 1/10,
        predicted_metrics := none, reasoning := "决策分析失败: " ++ npMaxEmptyMsg } :=
  ⟨by decide, (decide_total_fail_closed 1 cmHigh []).2 npMaxEmptyMsg (by decide)⟩

/-- C10: the Decision is a function of the predictions alone — two calls
with the same resource id and predictions but arbitrary different
current-metrics maps return identical decisions (the current cpu/memory
reads of main.py 360-361 are dead). -/
theorem decide_independent_of_current_metrics (rid : ℤ) (m1 m2 : CurrentMetrics)
    (pm : List ForecastPoint) :
    make_schedule_decision rid m1 pm = make_schedule_decision rid m2 pm := rfl

/-- The volatility rule always wins when its condition holds: whatever the
earlier chain chose, a standard deviation above 20 yields optimize/0.5. -/
theorem decisionRules_volatile (mc mm ac am sc sm : ℚ) (h : sc > 20 ∨ sm > 20) :
    decisionRules mc mm ac am sc sm = ("optimize", 5/10, reasonOptimize sc sm) := by
  unfold decisionRules
  rw [if_pos h]

/-- On a nonempty predictions list the analysis cannot fail, and Decide
returns the rule-chain decision over the first-6-point window statistics. -/
theorem make_schedule_decision_cons (rid : ℤ) (cm : CurrentMetrics)
    (p : ForecastPoint) (t : List ForecastPoint) :
    make_schedule_decision rid cm (p :: t) =
      { resource_id := rid
        action := (decisionRules
          (npMaxD (((p :: t).take 6).map (·.cpu_usage_percent)))
          (npMaxD (((p :: t).take 6).map (·.memory_usage_percent)))
          (npMean (((p :: t).take 6).map (·.cpu_usage_percent)))
          (npMean (((p :: t).take 6).map (·.memory_usage_percent)))
          (npStd (((p :: t).take 6).map (·.cpu_usage_percent)))
          (npStd (((p :: t).take 6).map (·.memory_usage_percent)))).1
        confidence := (decisionRules
          (npMaxD (((p :: t).take 6).map (·.cpu_usage_percent)))
          (npMaxD (((p :: t).take 6).map (·.memory_usage_percent)))
          (npMean (((p :: t).take 6).map (·.cpu_usage_percent)))
          (npMean (((p :: t).take 6).map (·.memory_usage_percent)))
          (npStd (((p :: t).take 6).map (·.cpu_usage_percent)))
          (npStd (((p :: t).take 6).map (·.memory_usage_percent)))).2.1
        predicted_metrics := some
          { avg_cpu := npMean (((p :: t).take 6).map (·.cpu_usage_percent))
            avg_memory := npMean (((p :: t).take 6).map (·.memory_usage_percent))
            max_cpu := npMaxD (((p :: t).take 6).map (·.cpu_usage_percent))
            max_memory := npMaxD (((p :: t).take 6).map (·.memory_usage_percent)) }
        reasoning := (decisionRules
          (npMaxD (((p :: t).take 6).map (·.cpu_usage_percent)))
          (npMaxD (((p :: t).take 6).map (·.memory_usage_percent)))
          (npMean (((p :: t).take 6).map (·.cpu_usage_percent)))
          (npMean (((p :: t).take 6).map (·.memory_usage_percent)))
          (npStd (((p :: t).take 6).map (·.cpu_usage_percent)))
          (npStd (((p :: t).take 6).map (·.memory_usage_percent)))).2.2 } := rfl

/-- C3: the volatility rule is evaluated last and overrides rules 2-4 —
for every nonempty predictions list whose first-6-point cpu or memory
standard deviation exceeds 20, Decide returns optimize with confidence
0.5; and concretely, forecast cpu=[90]x6 with memory flat (both standard
deviations 0) yields scale_up with confidence 0.9, while the same cpu
series with memory standard deviation 25 yields optimize with confidence
0.5. -/
theorem decide_volatility_overrides :
    (∀ (rid : ℤ) (cm : CurrentMetrics) (pm : List ForecastPoint), pm ≠ [] →
      (npStd ((pm.take 6).map (·.cpu_usage_percent)) > 20 ∨
       npStd ((pm.take 6).map (·.memory_usage_percent)) > 20) →
      (make_schedule_decision rid cm pm).action = "optimize" ∧
      (make_schedule_decision rid cm pm).confidence = 5/10) ∧
    ((make_schedule_decision 7 cmEmpty predsFlat90).action = "scale_up" ∧
     (make_schedule_decision 7 cmEmpty predsFlat90).confidence = 9/10 ∧
     npStd ((predsFlat90.take 6).map (·.cpu_usage_percent)) = 0 ∧
     npStd ((predsFlat90.take 6).map (·.memory_usage_percent)) = 0) ∧
    ((make_schedule_decision 7 cmEmpty predsVolatileMem).action = "optimize" ∧
     (make_schedule_decision 7 cmEmpty predsVolatileMem).confidence = 5/10 ∧
     npStd ((predsVolatileMem.take 6).map (·.memory_usage_percent)) = 25 ∧
     npMaxD ((predsVolatileMem.take 6).map (·.cpu_usage_percent)) = 90) := by
  refine ⟨?_, by decide, by decide⟩
  intro rid cm pm hne hstd
  obtain ⟨p, t, rfl⟩ := List.exists_cons_of_ne_nil hne
  rw [make_schedule_decision_cons, decisionRules_volatile _ _ _ _ _ _ hstd]
  exact ⟨rfl, rfl⟩

/-- Witness for C3's universally quantified part, at the concrete
volatile-memory series (and a nonempty current-metrics map, which cannot
matter). -/
theorem decide_volatility_overrides_w :
    predsVolatileMem ≠ [] ∧
    (make_schedule_decision 7 cmHigh predsVolatileMem).action = "optimize" :=
  ⟨by decide,
   (decide_volatility_overrides.1 7 cmHigh predsVolatileMem (by decide) (by decide)).1⟩

/-- C7 counterexample: with predictions = [], the max aggregate does not
evaluate to 0 — np.max raises, the analysis fails, the catch-all IS
entered, and the returned confidence is the fail-closed 0.1, not the 0.8 a
normal rule evaluation over zero statistics would give. -/
theorem decide_empty_window_cex :
    npMax ([] : List ℚ) ≠ .ok 0 ∧
    decisionAnalysis 3 cmEmpty [] = .error npMaxEmptyMsg ∧
    (make_schedule_decision 3 cmEmpty []).confidence = 1/10 ∧
    (make_schedule_decision 3 cmEmpty []).confidence ≠ 8/10 := by decide

/-- C7 amended: with an empty predictions list (the only way the first-6
window is empty) np.mean yields no error but np.max raises, so the
analysis aborts with numpy's empty-max error, Decide enters the catch-all,
and the call returns the fail-closed maintain decision (confidence 0.1,
empty aggregate metrics, the error text) — no exception propagates. -/
theorem decide_empty_window_fail_closed (rid : ℤ) (cm : CurrentMetrics) :
    decisionAnalysis rid cm [] = .error npMaxEmptyMsg ∧
    make_schedule_decision rid cm [] = failClosedDecision rid npMaxEmptyMsg :=
  ⟨rfl, rfl⟩

/-- C8 counterexample: Forecast exposes no seed — the fallback jitter reads
the process-global numpy generator (the ambient stream g) and the
timestamps read the wall clock.  Two calls with identical history and
horizon (there is no seed argument to hold fixed) but different ambient
RNG draws return different outputs. -/
theorem forecast_seed_determinism_cex :
    predict_resource_usage stepFail fitFail gZero 0 0 hist24 1 ≠
      predict_resource_usage stepFail fitFail gOne 0 0 hist24 1 ∧
    forecastOut stepFail fitFail gZero 0 0 hist24 1 = [⟨1, 50, 50, 50, 50⟩] ∧
    forecastOut stepFail fitFail gOne 0 0 hist24 1 = [⟨1, 100, 100, 100, 100⟩] := by decide

/-- C8 amended: Forecast accepts no injectable random source; its output is
a deterministic function of the history, horizon, model oracles, ambient
global-RNG stream and cursor, and clock reading — two calls agreeing on
all of those (not merely on history and horizon) produce identical output,
points and timestamps included. -/
theorem forecast_deterministic_given_ambient_state
    (step : List PredRow → Except String PredRow)
    (fit : List (List ℚ × PredRow) → Except String (List ℚ → Except String PredRow))
    (g1 g2 : ℕ → ℚ) (k1 k2 : ℕ) (now1 now2 : ℚ)
    (data1 data2 : List MetricSample) (horizon1 horizon2 : ℕ)
    (hg : g1 = g2) (hk : k1 = k2) (hn : now1 = now2)
    (hd : data1 = data2) (hh : horizon1 = horizon2) :
    predict_resource_usage step fit g1 k1 now1 data1 horizon1 =
      predict_resource_usage step fit g2 k2 now2 data2 horizon2 := by
  rw [hg, hk, hn, hd, hh]

/-- Witness for the amended C8 at concrete arguments. -/
theorem forecast_deterministic_given_ambient_state_w :
    predict_resource_usage stepFail fitFail gZero 0 0 hist24 1 =
      predict_resource_usage stepFail fitFail gZero 0 0 hist24 1 :=
  forecast_deterministic_given_ambient_state stepFail fitFail gZero gZero 0 0 0 0
    hist24 hist24 1 1 rfl rfl rfl rfl rfl

/-- C9 counterexample: a sequence model that succeeds at step 0 (producing
the distinctive cpu value 77 on the flat window) and fails at step 1 of a
2-step rollout.  The claim says the step-0 point is kept and only one
fallback point is added; in fact the whole output is the 2-point fallback
forecast and the produced point (cpu 77) appears nowhere. -/
theorem lstm_partial_points_cex :
    stepOnce win50 = .ok ⟨77, 50, 50, 50⟩ ∧
    lstmRollout stepOnce ((lstmWindow (prepare_features hist24)).map rowOfFeature) 2 =
      .error "lstm failure at step 1" ∧
    (lstm_predict stepOnce gZero 0 0 (prepare_features hist24) 2).1 =
      (fallback_prediction gZero 0 0 (prepare_features hist24) 2).1 ∧
    (77 : ℚ) ∉ ((lstm_predict stepOnce gZero 0 0 (prepare_features hist24) 2).1.map
      (·.cpu_usage_percent)) := by decide

/-- C9 amended: when the sequence forecaster's autoregressive rollout fails
at any step, every already-produced point is discarded and the fallback
trend estimator supplies all `horizon` points (the source's except clause
at main.py 200-203 returns a full fallback forecast). -/
theorem lstm_failure_discards_partial_points
    (step : List PredRow → Except String PredRow)
    (g : ℕ → ℚ) (k : ℕ) (now : ℚ) (features : List FeatureRow) (horizon : ℕ) (e : String)
    (h : lstmRollout step ((lstmWindow features).map rowOfFeature) horizon = .error e) :
    lstm_predict step g k now features horizon =
      fallback_prediction g k now features horizon := by
  unfold lstm_predict
  rw [h]

/-- Witness for the amended C9 at the concrete fail-at-step-1 oracle. -/
theorem lstm_failure_discards_partial_points_w :
    lstm_predict stepOnce gZero 0 0 (prepare_features hist24) 2 =
      fallback_prediction gZero 0 0 (prepare_features hist24) 2 :=
  lstm_failure_discards_partial_points stepOnce gZero 0 0 (prepare_features hist24) 2
    "lstm failure at step 1" (by decide)
